import Mathlib

/-!
# TI-SCI message protocol and hardware-unique-key retrieval (plat-k3)

A shallow embedding of

* `core/arch/arm/plat-k3/drivers/ti_sci_protocol.h` : the message type codes, the
  flag constants and the packed message structures, and
* `core/arch/arm/plat-k3/main.c` : `tee_otp_get_hw_unique_key`.

Structure declarations are embedded as lists of typed members; `sizeof` and
`offsetof` are computed from them by the C layout rule. The key-retrieval
function is embedded by explicit state passing over the three platform calls it
makes.
-/

namespace K3

/-! ## C object types and structure layout -/

/-- Size and alignment requirement, in bytes, of a C object type. -/
structure CType where
  size : Nat
  align : Nat
  deriving DecidableEq, Repr

/-- The type `uint8_t` of `<stdint.h>`. -/
def CType.uint8_t : CType := ⟨1, 1⟩

/-- The type `char`. -/
def CType.char : CType := ⟨1, 1⟩

/-- The type `uint16_t` of `<stdint.h>`. -/
def CType.uint16_t : CType := ⟨2, 2⟩

/-- The type `uint32_t` of `<stdint.h>`. -/
def CType.uint32_t : CType := ⟨4, 4⟩

/-- The array type `elem[n]`. -/
def CType.array (elem : CType) (n : Nat) : CType := ⟨elem.size * n, elem.align⟩

/-- One member declaration of a structure. -/
structure Member where
  name : String
  type : CType
  deriving DecidableEq, Repr

/-- A structure declaration: its members in declaration order, and whether it
carries the `__packed` attribute. -/
structure StructDecl where
  packed : Bool
  members : List Member
  deriving DecidableEq, Repr

/-- Round `off` up to the next multiple of `a`. -/
def alignUp (off a : Nat) : Nat := (off + a - 1) / a * a

/-- Modelled from the spec: `__packed` is defined in `compiler.h`, which is not
among the sources. Following the spec ("packed layout - no implicit compiler
padding") a member of a packed structure starts where the previous one ends;
in a structure without the attribute it starts at the next multiple of its
alignment requirement. -/
def memberOffset (packed : Bool) (off : Nat) (t : CType) : Nat :=
  if packed then off else alignUp off t.align

/-- Lay the members out from offset `off`: the offset of every member, by name,
and the offset just past the last member. -/
def layoutFrom (packed : Bool) : Nat → List Member → List (String × Nat) × Nat
  | off, [] => ([], off)
  | off, m :: ms =>
    let o := memberOffset packed off m.type
    let r := layoutFrom packed (o + m.type.size) ms
    ((m.name, o) :: r.1, r.2)

/-- Alignment requirement of a structure: 1 when packed, else the largest
alignment requirement among its members. -/
def StructDecl.alignof (s : StructDecl) : Nat :=
  if s.packed then 1 else (s.members.map (fun m => m.type.align)).foldl max 1

/-- The C operator `sizeof` on a structure type. -/
def StructDecl.sizeof (s : StructDecl) : Nat :=
  alignUp (layoutFrom s.packed 0 s.members).2 s.alignof

/-- The C macro `offsetof(s, member)`; `none` when `s` has no such member. -/
def StructDecl.offsetof (s : StructDecl) (member : String) : Option Nat :=
  ((layoutFrom s.packed 0 s.members).1.find? (fun p => p.1 == member)).map (fun p => p.2)

/-- Size in bytes of the named member of `s`; `none` when `s` has no such
member. -/
def StructDecl.memberSize (s : StructDecl) (member : String) : Option Nat :=
  (s.members.find? (fun m => m.name == member)).map (fun m => m.type.size)

/-- A structure used as the type of a member or of an array element. -/
def StructDecl.toCType (s : StructDecl) : CType := ⟨s.sizeof, s.alignof⟩

/-- All members of `s` with offset and size, in declaration order. -/
def StructDecl.table (s : StructDecl) : List (String × Nat × Nat) :=
  List.zipWith (fun p m => (p.1, p.2, m.type.size)) (layoutFrom s.packed 0 s.members).1 s.members

/-- Offset, inside `outer`, of the member `member` of the structure `inner`
that is itself the member `via` of `outer`:
`offsetof(outer, via) + offsetof(inner, member)`. -/
def StructDecl.offsetofIn (outer : StructDecl) (via : String) (inner : StructDecl)
    (member : String) : Option Nat :=
  (outer.offsetof via).bind (fun b => (inner.offsetof member).map (fun o => b + o))

/-- Number of padding bytes in `s`: its size less the sizes of its members. -/
def StructDecl.padding (s : StructDecl) : Nat :=
  s.sizeof - (s.members.map (fun m => m.type.size)).sum

/-! ## `ti_sci_protocol.h` -/

/-- Modelled from the spec: `BIT(nr)` is defined in `util.h`, which is not among
the sources. Following the spec ("bit0 = ack-on-received, bit1 =
ack-on-processed") it is the 32-bit word with only bit `nr` set. -/
def BIT (nr : Nat) : Nat := (1 <<< nr) % 2 ^ 32

/-- Generic Messages. -/
def TI_SCI_MSG_VERSION : Nat := 0x0002

/-- Security Management Messages. -/
def TI_SCI_MSG_SA2UL_GET_DKEK : Nat := 0x9029

/-- `struct ti_sci_secure_msg_hdr` - Secure Message Header for all messages and
responses. -/
def ti_sci_secure_msg_hdr : StructDecl :=
  { packed := true
    members := [⟨"checksum", CType.uint16_t⟩, ⟨"reserved", CType.uint16_t⟩] }

def TI_SCI_MSG_FLAG (val : Nat) : Nat := BIT val

def TI_SCI_FLAG_REQ_GENERIC_NORESPONSE : Nat := 0x0

def TI_SCI_FLAG_REQ_ACK_ON_RECEIVED : Nat := TI_SCI_MSG_FLAG 0

def TI_SCI_FLAG_REQ_ACK_ON_PROCESSED : Nat := TI_SCI_MSG_FLAG 1

def TI_SCI_FLAG_RESP_GENERIC_NACK : Nat := 0x0

def TI_SCI_FLAG_RESP_GENERIC_ACK : Nat := TI_SCI_MSG_FLAG 1

/-- `struct ti_sci_msg_hdr` - Generic Message Header for all messages and
responses. -/
def ti_sci_msg_hdr : StructDecl :=
  { packed := true
    members :=
      [⟨"sec_hdr", ti_sci_secure_msg_hdr.toCType⟩,
       ⟨"type", CType.uint16_t⟩,
       ⟨"host", CType.uint8_t⟩,
       ⟨"seq", CType.uint8_t⟩,
       ⟨"flags", CType.uint32_t⟩] }

/-- `struct ti_sci_msg_req_version` - Request for firmware version information. -/
def ti_sci_msg_req_version : StructDecl :=
  { packed := true
    members := [⟨"hdr", ti_sci_msg_hdr.toCType⟩] }

def FIRMWARE_DESCRIPTION_LENGTH : Nat := 32

/-- `struct ti_sci_msg_resp_version` - Response for firmware version
information. -/
def ti_sci_msg_resp_version : StructDecl :=
  { packed := true
    members :=
      [⟨"hdr", ti_sci_msg_hdr.toCType⟩,
       ⟨"firmware_description", CType.array CType.char FIRMWARE_DESCRIPTION_LENGTH⟩,
       ⟨"firmware_revision", CType.uint16_t⟩,
       ⟨"abi_major", CType.uint8_t⟩,
       ⟨"abi_minor", CType.uint8_t⟩,
       ⟨"sub_version", CType.uint8_t⟩,
       ⟨"patch_version", CType.uint8_t⟩] }

def KDF_LABEL_AND_CONTEXT_LEN_MAX : Nat := 41

/-- `struct ti_sci_msg_req_sa2ul_get_dkek` - Request for DKEK value. -/
def ti_sci_msg_req_sa2ul_get_dkek : StructDecl :=
  { packed := true
    members :=
      [⟨"hdr", ti_sci_msg_hdr.toCType⟩,
       ⟨"sa2ul_instance", CType.uint8_t⟩,
       ⟨"kdf_label_len", CType.uint8_t⟩,
       ⟨"kdf_context_len", CType.uint8_t⟩,
       ⟨"kdf_label_and_context", CType.array CType.uint8_t KDF_LABEL_AND_CONTEXT_LEN_MAX⟩] }

def SA2UL_DKEK_KEY_LEN : Nat := 32

/-- `struct ti_sci_msg_resp_sa2ul_get_dkek` - Response for DKEK value. -/
def ti_sci_msg_resp_sa2ul_get_dkek : StructDecl :=
  { packed := true
    members :=
      [⟨"hdr", ti_sci_msg_hdr.toCType⟩,
       ⟨"dkek", CType.array CType.uint8_t SA2UL_DKEK_KEY_LEN⟩] }

/-! ## `main.c` -/

/-- A value of the type `uint8_t` of `<stdint.h>`: a byte. -/
abbrev uint8_t := Fin 256

/-- An object of the C type `uint8_t[n]`: exactly `n` bytes. -/
structure Buffer (n : Nat) where
  bytes : List uint8_t
  size_eq : bytes.length = n
  deriving DecidableEq, Repr

/-- The initializer `{ 0 }` of an array of `n` bytes: every byte is zero. -/
def Buffer.zero (n : Nat) : Buffer n := ⟨List.replicate n 0, List.length_replicate n 0⟩

/-- A value of the C type `int`: 32 bits, two's complement. -/
structure CInt where
  val : Int
  range : -2147483648 ≤ val ∧ val < 2147483648
  deriving DecidableEq, Repr

/-- Modelled from the spec: `TEE_Result` is declared in `tee_api_types.h`, which
is not among the sources; it is the 32-bit unsigned result code that the spec
calls a typed result. -/
abbrev TEE_Result := Nat

/-- Modelled from the spec: `TEE_SUCCESS` is defined in `tee_api_defines.h`,
which is not among the sources. It is the result code `0x00000000` of the
GlobalPlatform TEE Internal Core API; the spec only calls it success. -/
def TEE_SUCCESS : TEE_Result := 0x00000000

/-- The conversion applied by `return ret;` in a function returning
`TEE_Result`: an `int` is converted to the 32-bit unsigned type modulo 2^32. -/
def TEE_Result.ofInt (ret : CInt) : TEE_Result := (ret.val % 2 ^ 32).toNat

/-- Modelled from the spec: `struct tee_hw_unique_key` is declared in
`kernel/tee_common_otp.h`, which is not among the sources. It is the caller's
key slot: one array `data` of `HW_UNIQUE_KEY_LENGTH` bytes ("a caller-defined
key length"). -/
structure tee_hw_unique_key (HW_UNIQUE_KEY_LENGTH : Nat) where
  data : Buffer HW_UNIQUE_KEY_LENGTH
  deriving DecidableEq, Repr

/-- Modelled from the spec: `memcpy` is not among the sources. It copies the
first `n` bytes of `src` over the first `n` bytes of `dst`. The result is `none`
when that would read past the end of `src` or write past the end of `dst`. -/
def memcpy {m k : Nat} (dst : Buffer m) (src : Buffer k) (n : Nat) : Option (Buffer m) :=
  if h : n ≤ m ∧ n ≤ k then
    some ⟨src.bytes.take n ++ dst.bytes.drop n, by
      rw [List.length_append, List.length_take, List.length_drop, src.size_eq, dst.size_eq]
      omega⟩
  else
    none

/-- Modelled from the spec: `memzero_explicit` is declared in `string_ext.h`,
which is not among the sources. It overwrites the first `count` bytes of `s`
with zero bytes; `count` may not exceed the size of `s`. -/
def memzero_explicit {m : Nat} (s : Buffer m) (count : Nat) (h : count ≤ m) : Buffer m :=
  ⟨List.replicate count 0 ++ s.bytes.drop count, by
    rw [List.length_append, List.length_replicate, List.length_drop, s.size_eq]
    omega⟩

/-- The platform calls made by `tee_otp_get_hw_unique_key`, acting on a state
`W` of the secure proxy and the system controller. Their definitions
(`drivers/sec_proxy.c`, `drivers/ti_sci.c`) are not among the sources, so they
are parameters: each may return any `int` and change the state in any way, and
`ti_sci_get_dkek` may leave any 32 bytes in the buffer it is given. The
parameters of `ti_sci_get_dkek` are named as in the spec:
`get_dkek(instance, label, context)`. -/
structure Platform (W : Type) where
  k3_sec_proxy_init : W → CInt × W
  ti_sci_init : W → CInt × W
  ti_sci_get_dkek : (sa2ul_instance : uint8_t) → (label : String) → (context : String) →
    (dkek : Buffer SA2UL_DKEK_KEY_LEN) → W → CInt × Buffer SA2UL_DKEK_KEY_LEN × W

/-- One platform call, with its arguments and the value it returned. -/
inductive Call where
  | k3_sec_proxy_init (ret : CInt)
  | ti_sci_init (ret : CInt)
  | ti_sci_get_dkek (sa2ul_instance : uint8_t) (label : String) (context : String) (ret : CInt)
  deriving DecidableEq, Repr

/-- Whether the call is a call of `ti_sci_init`. -/
def Call.isTiSciInit : Call → Bool
  | .ti_sci_init _ => true
  | _ => false

/-- Whether the call is a call of `ti_sci_get_dkek`. -/
def Call.isGetDkek : Call → Bool
  | .ti_sci_get_dkek _ _ _ _ => true
  | _ => false

/-- How an execution of `tee_otp_get_hw_unique_key` ends. -/
inductive Completion where
  /-- The function returns `ret` to its caller. -/
  | returned (ret : TEE_Result)
  /-- The condition of `assert` is false: the core stops, nothing is returned. -/
  | assertion_failed
  /-- The execution reads or writes outside an object: undefined behaviour. -/
  | out_of_bounds
  deriving DecidableEq, Repr

/-- The observable state when an execution of `tee_otp_get_hw_unique_key` ends:
how it ended, the caller's key slot, the local array `dkek`, the state of the
platform and the platform calls made, the first one first. -/
structure Final (W : Type) (HW_UNIQUE_KEY_LENGTH : Nat) where
  completion : Completion
  hwkey : tee_hw_unique_key HW_UNIQUE_KEY_LENGTH
  dkek : Buffer SA2UL_DKEK_KEY_LEN
  world : W
  calls : List Call

/-- `TEE_Result tee_otp_get_hw_unique_key(struct tee_hw_unique_key *hwkey)`.

The function is compiled for the platform flavors `am65x` and `j721e` only.
`HW_UNIQUE_KEY_LENGTH` (`kernel/tee_common_otp.h`) and whether `assert` is
compiled out (`NDEBUG`) are not fixed by the sources and are parameters.
`IMSG` only writes a trace message and is left out. The result records the
local array `dkek` as it is when the execution ends. -/
def tee_otp_get_hw_unique_key {W : Type} (HW_UNIQUE_KEY_LENGTH : Nat) (NDEBUG : Bool)
    (P : Platform W) (w : W) (hwkey : tee_hw_unique_key HW_UNIQUE_KEY_LENGTH) :
    Final W HW_UNIQUE_KEY_LENGTH :=
  -- uint8_t dkek[SA2UL_DKEK_KEY_LEN] = { 0 };
  let dkek : Buffer SA2UL_DKEK_KEY_LEN := Buffer.zero SA2UL_DKEK_KEY_LEN
  -- assert(SA2UL_DKEK_KEY_LEN >= HW_UNIQUE_KEY_LENGTH);
  if NDEBUG = false ∧ ¬ (SA2UL_DKEK_KEY_LEN ≥ HW_UNIQUE_KEY_LENGTH) then
    ⟨.assertion_failed, hwkey, dkek, w, []⟩
  else
    -- ret = k3_sec_proxy_init();
    let r1 := P.k3_sec_proxy_init w
    -- if (ret) return ret;
    if r1.1.val ≠ 0 then
      ⟨.returned (TEE_Result.ofInt r1.1), hwkey, dkek, r1.2, [.k3_sec_proxy_init r1.1]⟩
    else
      -- ret = ti_sci_init();
      let r2 := P.ti_sci_init r1.2
      -- if (ret) return ret;
      if r2.1.val ≠ 0 then
        ⟨.returned (TEE_Result.ofInt r2.1), hwkey, dkek, r2.2,
          [.k3_sec_proxy_init r1.1, .ti_sci_init r2.1]⟩
      else
        -- ret = ti_sci_get_dkek(0, "OP-TEE", "DKEK", dkek);
        let r3 := P.ti_sci_get_dkek 0 "OP-TEE" "DKEK" dkek r2.2
        let calls : List Call :=
          [.k3_sec_proxy_init r1.1, .ti_sci_init r2.1, .ti_sci_get_dkek 0 "OP-TEE" "DKEK" r3.1]
        -- if (ret) return ret;
        if r3.1.val ≠ 0 then
          ⟨.returned (TEE_Result.ofInt r3.1), hwkey, r3.2.1, r3.2.2, calls⟩
        else
          -- memcpy(&hwkey->data[0], dkek, sizeof(hwkey->data));
          match memcpy hwkey.data r3.2.1 HW_UNIQUE_KEY_LENGTH with
          | none => ⟨.out_of_bounds, hwkey, r3.2.1, r3.2.2, calls⟩
          | some data =>
            -- memzero_explicit(&dkek, sizeof(dkek));
            -- return TEE_SUCCESS;
            ⟨.returned TEE_SUCCESS, ⟨data⟩,
              memzero_explicit r3.2.1 SA2UL_DKEK_KEY_LEN (Nat.le_refl _), r3.2.2, calls⟩

/-! ## Concrete platforms and inputs -/

/-- The `int` value `0`. -/
def CInt.zero : CInt := ⟨0, by decide⟩

/-- The `int` value `-1`. -/
def CInt.minusOne : CInt := ⟨-1, by decide⟩

/-- A buffer of `n` bytes, each equal to `b`. -/
def Buffer.fill (n : Nat) (b : uint8_t) : Buffer n := ⟨List.replicate n b, List.length_replicate n b⟩

/-- The 32-byte pattern `0, 1, ..., 31`. -/
def patternKey : Buffer SA2UL_DKEK_KEY_LEN :=
  ⟨(List.range 32).map (fun i => Fin.ofNat i), by decide⟩

/-- A platform without state whose three calls return `a`, `b` and `c`, and
whose `ti_sci_get_dkek` leaves `key` in the buffer. -/
def constPlatform (a b c : CInt) (key : Buffer SA2UL_DKEK_KEY_LEN) : Platform Unit :=
  { k3_sec_proxy_init := fun w => (a, w)
    ti_sci_init := fun w => (b, w)
    ti_sci_get_dkek := fun _ _ _ _ w => (c, key, w) }

/-- A key slot of 16 bytes, each `0x55` on entry. -/
def slot16 : tee_hw_unique_key 16 := ⟨Buffer.fill 16 0x55⟩

/-! ## Message layout and protocol constants -/

/-- C5: the packed `struct ti_sci_msg_hdr` has the byte layout of the header
table: `checksum` at offset 0 (2 bytes), `reserved` at offset 2 (2 bytes),
`type` at offset 4 (2 bytes), `host` at offset 6 (1 byte), `seq` at offset 7
(1 byte), `flags` at offset 8 (4 bytes); there is no padding and the header is
12 bytes long. -/
theorem ti_sci_msg_hdr_layout :
    ti_sci_msg_hdr.offsetofIn "sec_hdr" ti_sci_secure_msg_hdr "checksum" = some 0 ∧
    ti_sci_secure_msg_hdr.memberSize "checksum" = some 2 ∧
    ti_sci_msg_hdr.offsetofIn "sec_hdr" ti_sci_secure_msg_hdr "reserved" = some 2 ∧
    ti_sci_secure_msg_hdr.memberSize "reserved" = some 2 ∧
    ti_sci_msg_hdr.offsetof "type" = some 4 ∧
    ti_sci_msg_hdr.memberSize "type" = some 2 ∧
    ti_sci_msg_hdr.offsetof "host" = some 6 ∧
    ti_sci_msg_hdr.memberSize "host" = some 1 ∧
    ti_sci_msg_hdr.offsetof "seq" = some 7 ∧
    ti_sci_msg_hdr.memberSize "seq" = some 1 ∧
    ti_sci_msg_hdr.offsetof "flags" = some 8 ∧
    ti_sci_msg_hdr.memberSize "flags" = some 4 ∧
    ti_sci_msg_hdr.table =
      [("sec_hdr", 0, 4), ("type", 4, 2), ("host", 6, 1), ("seq", 7, 1), ("flags", 8, 4)] ∧
    ti_sci_secure_msg_hdr.table = [("checksum", 0, 2), ("reserved", 2, 2)] ∧
    ti_sci_secure_msg_hdr.padding = 0 ∧
    ti_sci_msg_hdr.padding = 0 ∧
    ti_sci_msg_hdr.sizeof = 12 := by
  decide

/-- C6: in the packed `struct ti_sci_msg_req_sa2ul_get_dkek` the 12-byte header
is followed by `sa2ul_instance` (1 byte, offset 12), `kdf_label_len` (1 byte,
offset 13), `kdf_context_len` (1 byte, offset 14) and `kdf_label_and_context`
(41 bytes, offset 15), 56 bytes in all; in the packed
`struct ti_sci_msg_resp_sa2ul_get_dkek` the header is followed by `dkek`
(32 bytes, offset 12), 44 bytes in all. -/
theorem ti_sci_msg_sa2ul_get_dkek_layout :
    ti_sci_msg_req_sa2ul_get_dkek.table =
      [("hdr", 0, 12), ("sa2ul_instance", 12, 1), ("kdf_label_len", 13, 1),
       ("kdf_context_len", 14, 1), ("kdf_label_and_context", 15, 41)] ∧
    ti_sci_msg_req_sa2ul_get_dkek.offsetof "hdr" = some 0 ∧
    ti_sci_msg_req_sa2ul_get_dkek.memberSize "hdr" = some ti_sci_msg_hdr.sizeof ∧
    ti_sci_msg_hdr.sizeof = 12 ∧
    ti_sci_msg_req_sa2ul_get_dkek.offsetof "sa2ul_instance" = some 12 ∧
    ti_sci_msg_req_sa2ul_get_dkek.memberSize "sa2ul_instance" = some 1 ∧
    ti_sci_msg_req_sa2ul_get_dkek.offsetof "kdf_label_len" = some 13 ∧
    ti_sci_msg_req_sa2ul_get_dkek.memberSize "kdf_label_len" = some 1 ∧
    ti_sci_msg_req_sa2ul_get_dkek.offsetof "kdf_context_len" = some 14 ∧
    ti_sci_msg_req_sa2ul_get_dkek.memberSize "kdf_context_len" = some 1 ∧
    ti_sci_msg_req_sa2ul_get_dkek.offsetof "kdf_label_and_context" = some 15 ∧
    ti_sci_msg_req_sa2ul_get_dkek.memberSize "kdf_label_and_context" = some 41 ∧
    ti_sci_msg_req_sa2ul_get_dkek.padding = 0 ∧
    ti_sci_msg_req_sa2ul_get_dkek.sizeof = 56 ∧
    ti_sci_msg_resp_sa2ul_get_dkek.table = [("hdr", 0, 12), ("dkek", 12, 32)] ∧
    ti_sci_msg_resp_sa2ul_get_dkek.offsetof "hdr" = some 0 ∧
    ti_sci_msg_resp_sa2ul_get_dkek.memberSize "hdr" = some ti_sci_msg_hdr.sizeof ∧
    ti_sci_msg_resp_sa2ul_get_dkek.offsetof "dkek" = some 12 ∧
    ti_sci_msg_resp_sa2ul_get_dkek.memberSize "dkek" = some 32 ∧
    ti_sci_msg_resp_sa2ul_get_dkek.padding = 0 ∧
    ti_sci_msg_resp_sa2ul_get_dkek.sizeof = 44 := by
  decide

/-- C7: in the packed `struct ti_sci_msg_resp_version` the 12-byte header is
followed by `firmware_description` (32 bytes, offset 12), `firmware_revision`
(16 bits, offset 44) and the single-byte members `abi_major` (offset 46),
`abi_minor` (offset 47), `sub_version` (offset 48) and `patch_version`
(offset 49), in that order and without padding, 50 bytes in all;
`struct ti_sci_msg_req_version` is the 12-byte header alone. -/
theorem ti_sci_msg_version_layout :
    ti_sci_msg_resp_version.table =
      [("hdr", 0, 12), ("firmware_description", 12, 32), ("firmware_revision", 44, 2),
       ("abi_major", 46, 1), ("abi_minor", 47, 1), ("sub_version", 48, 1),
       ("patch_version", 49, 1)] ∧
    ti_sci_msg_resp_version.offsetof "hdr" = some 0 ∧
    ti_sci_msg_resp_version.memberSize "hdr" = some ti_sci_msg_hdr.sizeof ∧
    ti_sci_msg_hdr.sizeof = 12 ∧
    ti_sci_msg_resp_version.offsetof "firmware_description" = some 12 ∧
    ti_sci_msg_resp_version.memberSize "firmware_description" = some 32 ∧
    ti_sci_msg_resp_version.offsetof "firmware_revision" = some 44 ∧
    8 * CType.uint16_t.size = 16 ∧
    ti_sci_msg_resp_version.memberSize "firmware_revision" = some CType.uint16_t.size ∧
    ti_sci_msg_resp_version.offsetof "abi_major" = some 46 ∧
    ti_sci_msg_resp_version.memberSize "abi_major" = some 1 ∧
    ti_sci_msg_resp_version.offsetof "abi_minor" = some 47 ∧
    ti_sci_msg_resp_version.memberSize "abi_minor" = some 1 ∧
    ti_sci_msg_resp_version.offsetof "sub_version" = some 48 ∧
    ti_sci_msg_resp_version.memberSize "sub_version" = some 1 ∧
    ti_sci_msg_resp_version.offsetof "patch_version" = some 49 ∧
    ti_sci_msg_resp_version.memberSize "patch_version" = some 1 ∧
    ti_sci_msg_resp_version.padding = 0 ∧
    ti_sci_msg_resp_version.sizeof = 50 ∧
    ti_sci_msg_req_version.table = [("hdr", 0, 12)] ∧
    ti_sci_msg_req_version.members = [⟨"hdr", ti_sci_msg_hdr.toCType⟩] ∧
    ti_sci_msg_req_version.padding = 0 ∧
    ti_sci_msg_req_version.sizeof = 12 := by
  decide

/-- A bitwise "or" is zero only when both operands are zero. -/
theorem lor_eq_zero_iff (a b : Nat) : a ||| b = 0 ↔ a = 0 ∧ b = 0 := by
  constructor
  · intro h
    have hbit : ∀ i, a.testBit i = false ∧ b.testBit i = false := by
      intro i
      have hi := congrArg (fun x => Nat.testBit x i) h
      simpa [Nat.testBit_or] using hi
    constructor
    · apply Nat.eq_of_testBit_eq
      intro i
      simp [(hbit i).1]
    · apply Nat.eq_of_testBit_eq
      intro i
      simp [(hbit i).2]
  · rintro ⟨rfl, rfl⟩
    rfl

/-- C8: the protocol constants have the values of the spec:
`TI_SCI_MSG_VERSION = 0x0002`, `TI_SCI_MSG_SA2UL_GET_DKEK = 0x9029`,
`TI_SCI_FLAG_REQ_ACK_ON_RECEIVED` is bit 0 (value 1),
`TI_SCI_FLAG_REQ_ACK_ON_PROCESSED` is bit 1 (value 2) and equals
`TI_SCI_FLAG_RESP_GENERIC_ACK`, and `TI_SCI_FLAG_REQ_GENERIC_NORESPONSE` and
`TI_SCI_FLAG_RESP_GENERIC_NACK` are both 0. The two ack bits are distinct,
non-zero and do not overlap. Hence a request flag word, made by or-ing
"ack on received" or nothing with "ack on processed" or nothing, equals "no
response" exactly when neither ack bit was put in, and each ack bit can be read
back from the word; and for any word at all, its ack bits taken together are
"no response" exactly when neither ack bit is set. -/
theorem ti_sci_protocol_constants :
    TI_SCI_MSG_VERSION = 0x0002 ∧
    TI_SCI_MSG_SA2UL_GET_DKEK = 0x9029 ∧
    TI_SCI_FLAG_REQ_ACK_ON_RECEIVED = 2 ^ 0 ∧
    TI_SCI_FLAG_REQ_ACK_ON_RECEIVED = 1 ∧
    TI_SCI_FLAG_REQ_ACK_ON_PROCESSED = 2 ^ 1 ∧
    TI_SCI_FLAG_REQ_ACK_ON_PROCESSED = 2 ∧
    TI_SCI_FLAG_REQ_ACK_ON_PROCESSED = TI_SCI_FLAG_RESP_GENERIC_ACK ∧
    TI_SCI_FLAG_REQ_GENERIC_NORESPONSE = 0 ∧
    TI_SCI_FLAG_RESP_GENERIC_NACK = 0 ∧
    TI_SCI_FLAG_REQ_GENERIC_NORESPONSE = TI_SCI_FLAG_RESP_GENERIC_NACK ∧
    TI_SCI_FLAG_REQ_ACK_ON_RECEIVED ≠ TI_SCI_FLAG_REQ_ACK_ON_PROCESSED ∧
    TI_SCI_FLAG_REQ_ACK_ON_RECEIVED ≠ 0 ∧
    TI_SCI_FLAG_REQ_ACK_ON_PROCESSED ≠ 0 ∧
    TI_SCI_FLAG_REQ_ACK_ON_RECEIVED &&& TI_SCI_FLAG_REQ_ACK_ON_PROCESSED = 0 ∧
    (∀ received processed : Bool,
      ((if received then TI_SCI_FLAG_REQ_ACK_ON_RECEIVED
          else TI_SCI_FLAG_REQ_GENERIC_NORESPONSE) |||
        (if processed then TI_SCI_FLAG_REQ_ACK_ON_PROCESSED
          else TI_SCI_FLAG_REQ_GENERIC_NORESPONSE) = TI_SCI_FLAG_REQ_GENERIC_NORESPONSE ↔
        received = false ∧ processed = false) ∧
      (((if received then TI_SCI_FLAG_REQ_ACK_ON_RECEIVED
          else TI_SCI_FLAG_REQ_GENERIC_NORESPONSE) |||
        (if processed then TI_SCI_FLAG_REQ_ACK_ON_PROCESSED
          else TI_SCI_FLAG_REQ_GENERIC_NORESPONSE)) &&& TI_SCI_FLAG_REQ_ACK_ON_RECEIVED = 0 ↔
        received = false) ∧
      (((if received then TI_SCI_FLAG_REQ_ACK_ON_RECEIVED
          else TI_SCI_FLAG_REQ_GENERIC_NORESPONSE) |||
        (if processed then TI_SCI_FLAG_REQ_ACK_ON_PROCESSED
          else TI_SCI_FLAG_REQ_GENERIC_NORESPONSE)) &&& TI_SCI_FLAG_REQ_ACK_ON_PROCESSED = 0 ↔
        processed = false)) ∧
    (∀ flags : Nat,
      flags &&& (TI_SCI_FLAG_REQ_ACK_ON_RECEIVED ||| TI_SCI_FLAG_REQ_ACK_ON_PROCESSED)
          = TI_SCI_FLAG_REQ_GENERIC_NORESPONSE ↔
        flags &&& TI_SCI_FLAG_REQ_ACK_ON_RECEIVED = 0 ∧
        flags &&& TI_SCI_FLAG_REQ_ACK_ON_PROCESSED = 0) := by
  refine ⟨by decide, by decide, by decide, by decide, by decide, by decide, by decide,
    by decide, by decide, by decide, by decide, by decide, by decide, by decide, by decide, ?_⟩
  intro flags
  have hn : TI_SCI_FLAG_REQ_GENERIC_NORESPONSE = 0 := by decide
  rw [Nat.and_or_distrib_left, hn, lor_eq_zero_iff]

/-! ## `tee_otp_get_hw_unique_key` -/

theorem Buffer.eq_of_bytes {n : Nat} {a b : Buffer n} (h : a.bytes = b.bytes) : a = b := by
  cases a
  cases b
  simp only [Buffer.mk.injEq]
  exact h

/-- Zeroing the whole of a buffer leaves the all-zero buffer. -/
theorem memzero_explicit_whole {m : Nat} (s : Buffer m) :
    memzero_explicit s m (Nat.le_refl m) = Buffer.zero m := by
  apply Buffer.eq_of_bytes
  have hdrop : s.bytes.drop m = [] := List.drop_of_length_le (by rw [s.size_eq])
  simp [memzero_explicit, Buffer.zero, hdrop]

/-- Copying as many bytes as the destination holds, from a source that is at
least as long, succeeds and leaves the leading bytes of the source. -/
theorem memcpy_whole {m k : Nat} (dst : Buffer m) (src : Buffer k) (h : m ≤ k) :
    ∃ d : Buffer m, memcpy dst src m = some d ∧ d.bytes = src.bytes.take m := by
  have hdrop : dst.bytes.drop m = [] := List.drop_of_length_le (by rw [dst.size_eq])
  refine ⟨⟨src.bytes.take m, by rw [List.length_take, src.size_eq]; omega⟩, ?_, rfl⟩
  unfold memcpy
  rw [dif_pos ⟨Nat.le_refl m, h⟩]
  simp [hdrop]

/-- Copying more bytes than the source holds is out of bounds. -/
theorem memcpy_past_source {m k : Nat} (dst : Buffer m) (src : Buffer k) (n : Nat)
    (h : k < n) : memcpy dst src n = none := by
  unfold memcpy
  rw [dif_neg]
  omega

/-- A nonzero `int` stays nonzero when converted to `TEE_Result`. -/
theorem TEE_Result.ofInt_eq_success_iff (r : CInt) :
    TEE_Result.ofInt r = TEE_SUCCESS ↔ r.val = 0 := by
  have hr := r.range
  unfold TEE_Result.ofInt TEE_SUCCESS
  rw [Int.toNat_eq_zero]
  norm_num
  omega

/-! ### The six ways an execution can go -/

/-- The assertion is compiled in and false: the execution stops there. -/
theorem run_assertion_failed {W : Type} (H : Nat) (P : Platform W) (w : W)
    (hwkey : tee_hw_unique_key H) (hgt : SA2UL_DKEK_KEY_LEN < H) :
    tee_otp_get_hw_unique_key H false P w hwkey =
      ⟨.assertion_failed, hwkey, Buffer.zero SA2UL_DKEK_KEY_LEN, w, []⟩ := by
  unfold tee_otp_get_hw_unique_key
  rw [if_pos]
  exact ⟨rfl, by omega⟩

/-- `k3_sec_proxy_init` fails. -/
theorem run_sec_proxy_failed {W : Type} (H : Nat) (NDEBUG : Bool) (P : Platform W) (w : W)
    (hwkey : tee_hw_unique_key H) (r1 : CInt) (w1 : W)
    (hpass : NDEBUG = true ∨ H ≤ SA2UL_DKEK_KEY_LEN)
    (e1 : P.k3_sec_proxy_init w = (r1, w1)) (n1 : r1.val ≠ 0) :
    tee_otp_get_hw_unique_key H NDEBUG P w hwkey =
      ⟨.returned (TEE_Result.ofInt r1), hwkey, Buffer.zero SA2UL_DKEK_KEY_LEN, w1,
        [.k3_sec_proxy_init r1]⟩ := by
  unfold tee_otp_get_hw_unique_key
  rw [if_neg (by rcases hpass with h | h <;> simp [h])]
  simp only [e1]
  rw [if_pos n1]

/-- `k3_sec_proxy_init` succeeds and `ti_sci_init` fails. -/
theorem run_ti_sci_init_failed {W : Type} (H : Nat) (NDEBUG : Bool) (P : Platform W) (w : W)
    (hwkey : tee_hw_unique_key H) (r1 r2 : CInt) (w1 w2 : W)
    (hpass : NDEBUG = true ∨ H ≤ SA2UL_DKEK_KEY_LEN)
    (e1 : P.k3_sec_proxy_init w = (r1, w1)) (z1 : r1.val = 0)
    (e2 : P.ti_sci_init w1 = (r2, w2)) (n2 : r2.val ≠ 0) :
    tee_otp_get_hw_unique_key H NDEBUG P w hwkey =
      ⟨.returned (TEE_Result.ofInt r2), hwkey, Buffer.zero SA2UL_DKEK_KEY_LEN, w2,
        [.k3_sec_proxy_init r1, .ti_sci_init r2]⟩ := by
  unfold tee_otp_get_hw_unique_key
  rw [if_neg (by rcases hpass with h | h <;> simp [h])]
  simp only [e1]
  rw [if_neg (not_not.mpr z1)]
  simp only [e2]
  rw [if_pos n2]

/-- Both initialisations succeed and `ti_sci_get_dkek` fails, leaving `K` in
the buffer. -/
theorem run_get_dkek_failed {W : Type} (H : Nat) (NDEBUG : Bool) (P : Platform W) (w : W)
    (hwkey : tee_hw_unique_key H) (r1 r2 r3 : CInt) (w1 w2 w3 : W)
    (K : Buffer SA2UL_DKEK_KEY_LEN)
    (hpass : NDEBUG = true ∨ H ≤ SA2UL_DKEK_KEY_LEN)
    (e1 : P.k3_sec_proxy_init w = (r1, w1)) (z1 : r1.val = 0)
    (e2 : P.ti_sci_init w1 = (r2, w2)) (z2 : r2.val = 0)
    (e3 : P.ti_sci_get_dkek 0 "OP-TEE" "DKEK" (Buffer.zero SA2UL_DKEK_KEY_LEN) w2 = (r3, K, w3))
    (n3 : r3.val ≠ 0) :
    tee_otp_get_hw_unique_key H NDEBUG P w hwkey =
      ⟨.returned (TEE_Result.ofInt r3), hwkey, K, w3,
        [.k3_sec_proxy_init r1, .ti_sci_init r2, .ti_sci_get_dkek 0 "OP-TEE" "DKEK" r3]⟩ := by
  unfold tee_otp_get_hw_unique_key
  rw [if_neg (by rcases hpass with h | h <;> simp [h])]
  simp only [e1]
  rw [if_neg (not_not.mpr z1)]
  simp only [e2]
  rw [if_neg (not_not.mpr z2)]
  simp only [e3]
  rw [if_pos n3]

/-- All three calls succeed and the key slot is no longer than the buffer. -/
theorem run_succeeded {W : Type} (H : Nat) (NDEBUG : Bool) (P : Platform W) (w : W)
    (hwkey : tee_hw_unique_key H) (r1 r2 r3 : CInt) (w1 w2 w3 : W)
    (K : Buffer SA2UL_DKEK_KEY_LEN)
    (hle : H ≤ SA2UL_DKEK_KEY_LEN)
    (e1 : P.k3_sec_proxy_init w = (r1, w1)) (z1 : r1.val = 0)
    (e2 : P.ti_sci_init w1 = (r2, w2)) (z2 : r2.val = 0)
    (e3 : P.ti_sci_get_dkek 0 "OP-TEE" "DKEK" (Buffer.zero SA2UL_DKEK_KEY_LEN) w2 = (r3, K, w3))
    (z3 : r3.val = 0) :
    ∃ d : Buffer H, d.bytes = K.bytes.take H ∧
      tee_otp_get_hw_unique_key H NDEBUG P w hwkey =
        ⟨.returned TEE_SUCCESS, ⟨d⟩, Buffer.zero SA2UL_DKEK_KEY_LEN, w3,
          [.k3_sec_proxy_init r1, .ti_sci_init r2, .ti_sci_get_dkek 0 "OP-TEE" "DKEK" r3]⟩ := by
  obtain ⟨d, hd, hbytes⟩ := memcpy_whole hwkey.data K hle
  refine ⟨d, hbytes, ?_⟩
  unfold tee_otp_get_hw_unique_key
  rw [if_neg (by simp [hle])]
  simp only [e1]
  rw [if_neg (not_not.mpr z1)]
  simp only [e2]
  rw [if_neg (not_not.mpr z2)]
  simp only [e3]
  rw [if_neg (not_not.mpr z3)]
  simp only [hd, memzero_explicit_whole]

/-- All three calls succeed, the assertion is compiled out and the key slot is
longer than the buffer: the copy reads past the end of the buffer. -/
theorem run_out_of_bounds {W : Type} (H : Nat) (P : Platform W) (w : W)
    (hwkey : tee_hw_unique_key H) (r1 r2 r3 : CInt) (w1 w2 w3 : W)
    (K : Buffer SA2UL_DKEK_KEY_LEN)
    (hgt : SA2UL_DKEK_KEY_LEN < H)
    (e1 : P.k3_sec_proxy_init w = (r1, w1)) (z1 : r1.val = 0)
    (e2 : P.ti_sci_init w1 = (r2, w2)) (z2 : r2.val = 0)
    (e3 : P.ti_sci_get_dkek 0 "OP-TEE" "DKEK" (Buffer.zero SA2UL_DKEK_KEY_LEN) w2 = (r3, K, w3))
    (z3 : r3.val = 0) :
    tee_otp_get_hw_unique_key H true P w hwkey =
      ⟨.out_of_bounds, hwkey, K, w3,
        [.k3_sec_proxy_init r1, .ti_sci_init r2, .ti_sci_get_dkek 0 "OP-TEE" "DKEK" r3]⟩ := by
  unfold tee_otp_get_hw_unique_key
  rw [if_neg (by simp)]
  simp only [e1]
  rw [if_neg (not_not.mpr z1)]
  simp only [e2]
  rw [if_neg (not_not.mpr z2)]
  simp only [e3]
  rw [if_neg (not_not.mpr z3)]
  simp only [memcpy_past_source hwkey.data K H hgt]

/-- Every execution goes one of the six ways. -/
theorem run_cases {W : Type} (H : Nat) (NDEBUG : Bool) (P : Platform W) (w : W)
    (hwkey : tee_hw_unique_key H) (r1 r2 r3 : CInt) (w1 w2 w3 : W)
    (K : Buffer SA2UL_DKEK_KEY_LEN)
    (e1 : P.k3_sec_proxy_init w = (r1, w1))
    (e2 : P.ti_sci_init w1 = (r2, w2))
    (e3 : P.ti_sci_get_dkek 0 "OP-TEE" "DKEK" (Buffer.zero SA2UL_DKEK_KEY_LEN) w2 = (r3, K, w3)) :
    (NDEBUG = false ∧ SA2UL_DKEK_KEY_LEN < H ∧
      tee_otp_get_hw_unique_key H NDEBUG P w hwkey =
        ⟨.assertion_failed, hwkey, Buffer.zero SA2UL_DKEK_KEY_LEN, w, []⟩) ∨
    (r1.val ≠ 0 ∧
      tee_otp_get_hw_unique_key H NDEBUG P w hwkey =
        ⟨.returned (TEE_Result.ofInt r1), hwkey, Buffer.zero SA2UL_DKEK_KEY_LEN, w1,
          [.k3_sec_proxy_init r1]⟩) ∨
    (r1.val = 0 ∧ r2.val ≠ 0 ∧
      tee_otp_get_hw_unique_key H NDEBUG P w hwkey =
        ⟨.returned (TEE_Result.ofInt r2), hwkey, Buffer.zero SA2UL_DKEK_KEY_LEN, w2,
          [.k3_sec_proxy_init r1, .ti_sci_init r2]⟩) ∨
    (r1.val = 0 ∧ r2.val = 0 ∧ r3.val ≠ 0 ∧
      tee_otp_get_hw_unique_key H NDEBUG P w hwkey =
        ⟨.returned (TEE_Result.ofInt r3), hwkey, K, w3,
          [.k3_sec_proxy_init r1, .ti_sci_init r2, .ti_sci_get_dkek 0 "OP-TEE" "DKEK" r3]⟩) ∨
    (r1.val = 0 ∧ r2.val = 0 ∧ r3.val = 0 ∧ H ≤ SA2UL_DKEK_KEY_LEN ∧
      ∃ d : Buffer H, d.bytes = K.bytes.take H ∧
        tee_otp_get_hw_unique_key H NDEBUG P w hwkey =
          ⟨.returned TEE_SUCCESS, ⟨d⟩, Buffer.zero SA2UL_DKEK_KEY_LEN, w3,
            [.k3_sec_proxy_init r1, .ti_sci_init r2,
              .ti_sci_get_dkek 0 "OP-TEE" "DKEK" r3]⟩) ∨
    (r1.val = 0 ∧ r2.val = 0 ∧ r3.val = 0 ∧ NDEBUG = true ∧ SA2UL_DKEK_KEY_LEN < H ∧
      tee_otp_get_hw_unique_key H NDEBUG P w hwkey =
        ⟨.out_of_bounds, hwkey, K, w3,
          [.k3_sec_proxy_init r1, .ti_sci_init r2, .ti_sci_get_dkek 0 "OP-TEE" "DKEK" r3]⟩) := by
  by_cases hle : H ≤ SA2UL_DKEK_KEY_LEN
  · have hpass : NDEBUG = true ∨ H ≤ SA2UL_DKEK_KEY_LEN := Or.inr hle
    by_cases z1 : r1.val = 0
    · by_cases z2 : r2.val = 0
      · by_cases z3 : r3.val = 0
        · exact Or.inr (Or.inr (Or.inr (Or.inr (Or.inl
            ⟨z1, z2, z3, hle, run_succeeded H NDEBUG P w hwkey r1 r2 r3 w1 w2 w3 K hle
              e1 z1 e2 z2 e3 z3⟩))))
        · exact Or.inr (Or.inr (Or.inr (Or.inl
            ⟨z1, z2, z3, run_get_dkek_failed H NDEBUG P w hwkey r1 r2 r3 w1 w2 w3 K hpass
              e1 z1 e2 z2 e3 z3⟩)))
      · exact Or.inr (Or.inr (Or.inl
          ⟨z1, z2, run_ti_sci_init_failed H NDEBUG P w hwkey r1 r2 w1 w2 hpass e1 z1 e2 z2⟩))
    · exact Or.inr (Or.inl ⟨z1, run_sec_proxy_failed H NDEBUG P w hwkey r1 w1 hpass e1 z1⟩)
  · have hgt : SA2UL_DKEK_KEY_LEN < H := by omega
    cases NDEBUG with
    | false => exact Or.inl ⟨rfl, hgt, run_assertion_failed H P w hwkey hgt⟩
    | true =>
      have hpass : true = true ∨ H ≤ SA2UL_DKEK_KEY_LEN := Or.inl rfl
      by_cases z1 : r1.val = 0
      · by_cases z2 : r2.val = 0
        · by_cases z3 : r3.val = 0
          · exact Or.inr (Or.inr (Or.inr (Or.inr (Or.inr
              ⟨z1, z2, z3, rfl, hgt, run_out_of_bounds H P w hwkey r1 r2 r3 w1 w2 w3 K hgt
                e1 z1 e2 z2 e3 z3⟩))))
          · exact Or.inr (Or.inr (Or.inr (Or.inl
              ⟨z1, z2, z3, run_get_dkek_failed H true P w hwkey r1 r2 r3 w1 w2 w3 K hpass
                e1 z1 e2 z2 e3 z3⟩)))
        · exact Or.inr (Or.inr (Or.inl
            ⟨z1, z2, run_ti_sci_init_failed H true P w hwkey r1 r2 w1 w2 hpass e1 z1 e2 z2⟩))
      · exact Or.inr (Or.inl ⟨z1, run_sec_proxy_failed H true P w hwkey r1 w1 hpass e1 z1⟩)

/-! ### Zeroization of the staging buffer -/

/-- C1 (evaluation at the failing input): with a 16-byte key slot, both
initialisations returning 0 and `ti_sci_get_dkek` returning -1 after storing
`0xAA` in each of the 32 bytes of `dkek`, the function returns `0xFFFFFFFF` and
at that moment the local array `dkek` still holds the 32 bytes `0xAA`: it is
not all zero. -/
theorem dkek_left_in_place_when_get_dkek_fails :
    (tee_otp_get_hw_unique_key 16 false
        (constPlatform CInt.zero CInt.zero CInt.minusOne (Buffer.fill 32 0xAA)) ()
        slot16).completion = .returned 0xFFFFFFFF ∧
    (tee_otp_get_hw_unique_key 16 false
        (constPlatform CInt.zero CInt.zero CInt.minusOne (Buffer.fill 32 0xAA)) ()
        slot16).dkek.bytes = List.replicate 32 0xAA ∧
    (tee_otp_get_hw_unique_key 16 false
        (constPlatform CInt.zero CInt.zero CInt.minusOne (Buffer.fill 32 0xAA)) ()
        slot16).dkek ≠ Buffer.zero SA2UL_DKEK_KEY_LEN ∧
    ¬ (∀ b ∈ (tee_otp_get_hw_unique_key 16 false
        (constPlatform CInt.zero CInt.zero CInt.minusOne (Buffer.fill 32 0xAA)) ()
        slot16).dkek.bytes, b = 0) := by
  have hrun := run_get_dkek_failed 16 false
    (constPlatform CInt.zero CInt.zero CInt.minusOne (Buffer.fill 32 0xAA)) () slot16
    CInt.zero CInt.zero CInt.minusOne () () () (Buffer.fill 32 0xAA) (Or.inr (by decide))
    rfl rfl rfl rfl rfl (by decide)
  rw [hrun]
  refine ⟨by decide, by decide, by decide, ?_⟩
  intro hall
  exact absurd (hall 0xAA (by decide)) (by decide)

/-- What the local array `dkek` holds at the moment of return, on each return
path: all zero after a failed `k3_sec_proxy_init`, after a failed `ti_sci_init`
and on success; after a failed `ti_sci_get_dkek`, whatever that call left. -/
theorem dkek_at_return {W : Type} (H : Nat) (NDEBUG : Bool) (P : Platform W) (w : W)
    (hwkey : tee_hw_unique_key H) (r1 r2 r3 : CInt) (w1 w2 w3 : W)
    (K : Buffer SA2UL_DKEK_KEY_LEN)
    (hle : H ≤ SA2UL_DKEK_KEY_LEN)
    (e1 : P.k3_sec_proxy_init w = (r1, w1))
    (e2 : P.ti_sci_init w1 = (r2, w2))
    (e3 : P.ti_sci_get_dkek 0 "OP-TEE" "DKEK" (Buffer.zero SA2UL_DKEK_KEY_LEN) w2 = (r3, K, w3)) :
    (r1.val ≠ 0 →
      (tee_otp_get_hw_unique_key H NDEBUG P w hwkey).dkek = Buffer.zero SA2UL_DKEK_KEY_LEN) ∧
    (r1.val = 0 → r2.val ≠ 0 →
      (tee_otp_get_hw_unique_key H NDEBUG P w hwkey).dkek = Buffer.zero SA2UL_DKEK_KEY_LEN) ∧
    (r1.val = 0 → r2.val = 0 → r3.val = 0 →
      (tee_otp_get_hw_unique_key H NDEBUG P w hwkey).dkek = Buffer.zero SA2UL_DKEK_KEY_LEN) ∧
    (r1.val = 0 → r2.val = 0 → r3.val ≠ 0 →
      (tee_otp_get_hw_unique_key H NDEBUG P w hwkey).dkek = K) := by
  have hpass : NDEBUG = true ∨ H ≤ SA2UL_DKEK_KEY_LEN := Or.inr hle
  refine ⟨fun n1 => ?_, fun z1 n2 => ?_, fun z1 z2 z3 => ?_, fun z1 z2 n3 => ?_⟩
  · rw [run_sec_proxy_failed H NDEBUG P w hwkey r1 w1 hpass e1 n1]
  · rw [run_ti_sci_init_failed H NDEBUG P w hwkey r1 r2 w1 w2 hpass e1 z1 e2 n2]
  · obtain ⟨d, _, hrun⟩ :=
      run_succeeded H NDEBUG P w hwkey r1 r2 r3 w1 w2 w3 K hle e1 z1 e2 z2 e3 z3
    rw [hrun]
  · rw [run_get_dkek_failed H NDEBUG P w hwkey r1 r2 r3 w1 w2 w3 K hpass e1 z1 e2 z2 e3 n3]

/-! ### The key reaches the caller -/

/-- C2: for every 32-byte key `K` that `ti_sci_get_dkek` leaves in the buffer,
if `k3_sec_proxy_init`, `ti_sci_init` and `ti_sci_get_dkek` all return 0 and
`HW_UNIQUE_KEY_LENGTH <= SA2UL_DKEK_KEY_LEN` (the asserted condition), the
function returns `TEE_SUCCESS` and `hwkey->data` is exactly the first
`HW_UNIQUE_KEY_LENGTH` bytes of `K`, in order; the copy stays inside the
32-byte staging buffer. -/
theorem hw_unique_key_is_leading_bytes_of_dkek {W : Type} (H : Nat) (NDEBUG : Bool)
    (P : Platform W) (w : W) (hwkey : tee_hw_unique_key H) (r1 r2 r3 : CInt) (w1 w2 w3 : W)
    (K : Buffer SA2UL_DKEK_KEY_LEN)
    (e1 : P.k3_sec_proxy_init w = (r1, w1))
    (e2 : P.ti_sci_init w1 = (r2, w2))
    (e3 : P.ti_sci_get_dkek 0 "OP-TEE" "DKEK" (Buffer.zero SA2UL_DKEK_KEY_LEN) w2 = (r3, K, w3))
    (z1 : r1.val = 0) (z2 : r2.val = 0) (z3 : r3.val = 0)
    (hle : H ≤ SA2UL_DKEK_KEY_LEN) :
    (tee_otp_get_hw_unique_key H NDEBUG P w hwkey).completion = .returned TEE_SUCCESS ∧
    (tee_otp_get_hw_unique_key H NDEBUG P w hwkey).hwkey.data.bytes = K.bytes.take H ∧
    (tee_otp_get_hw_unique_key H NDEBUG P w hwkey).hwkey.data.bytes.length = H ∧
    (∀ i, i < H →
      (tee_otp_get_hw_unique_key H NDEBUG P w hwkey).hwkey.data.bytes[i]? = K.bytes[i]?) ∧
    SA2UL_DKEK_KEY_LEN = 32 ∧
    K.bytes.length = 32 ∧
    H ≤ K.bytes.length ∧
    (memcpy hwkey.data K H).isSome = true ∧
    (tee_otp_get_hw_unique_key H NDEBUG P w hwkey).completion ≠ .out_of_bounds := by
  obtain ⟨d, hd, hrun⟩ :=
    run_succeeded H NDEBUG P w hwkey r1 r2 r3 w1 w2 w3 K hle e1 z1 e2 z2 e3 z3
  obtain ⟨d2, hd2, _⟩ := memcpy_whole hwkey.data K hle
  rw [hrun]
  refine ⟨rfl, hd, d.size_eq, ?_, rfl, K.size_eq, ?_, ?_, ?_⟩
  · intro i hi
    show d.bytes[i]? = K.bytes[i]?
    rw [hd, List.getElem?_take]
    simp [hi]
  · rw [K.size_eq]
    exact hle
  · rw [hd2]
    rfl
  · simp

/-- Witness of C2: a 16-byte key slot and the key `0, 1, ..., 31`. -/
theorem hw_unique_key_is_leading_bytes_of_dkek_witness :
    16 ≤ SA2UL_DKEK_KEY_LEN ∧
    (tee_otp_get_hw_unique_key 16 false
      (constPlatform CInt.zero CInt.zero CInt.zero patternKey) () slot16).completion
        = .returned TEE_SUCCESS ∧
    (tee_otp_get_hw_unique_key 16 false
      (constPlatform CInt.zero CInt.zero CInt.zero patternKey) () slot16).hwkey.data.bytes
        = [0, 1, 2, 3, 4, 5, 6, 7, 8, 9, 10, 11, 12, 13, 14, 15] :=
  ⟨by decide,
   (hw_unique_key_is_leading_bytes_of_dkek 16 false
      (constPlatform CInt.zero CInt.zero CInt.zero patternKey) () slot16
      CInt.zero CInt.zero CInt.zero () () () patternKey rfl rfl rfl rfl rfl rfl (by decide)).1,
   (hw_unique_key_is_leading_bytes_of_dkek 16 false
      (constPlatform CInt.zero CInt.zero CInt.zero patternKey) () slot16
      CInt.zero CInt.zero CInt.zero () () () patternKey rfl rfl rfl rfl rfl rfl (by decide)).2.1⟩

/-! ### Failures reach the caller -/

/-- C3: no failure is swallowed. For a key length the assertion admits, if the
first of `k3_sec_proxy_init`, `ti_sci_init`, `ti_sci_get_dkek` (in that order)
to return a nonzero value returns `r`, the function returns `r` converted to
`TEE_Result`, and that value differs from `TEE_SUCCESS`; so the function
returns `TEE_SUCCESS` if and only if all three calls returned 0. -/
theorem failure_is_returned {W : Type} (H : Nat) (NDEBUG : Bool)
    (P : Platform W) (w : W) (hwkey : tee_hw_unique_key H) (r1 r2 r3 : CInt) (w1 w2 w3 : W)
    (K : Buffer SA2UL_DKEK_KEY_LEN)
    (e1 : P.k3_sec_proxy_init w = (r1, w1))
    (e2 : P.ti_sci_init w1 = (r2, w2))
    (e3 : P.ti_sci_get_dkek 0 "OP-TEE" "DKEK" (Buffer.zero SA2UL_DKEK_KEY_LEN) w2 = (r3, K, w3))
    (hle : H ≤ SA2UL_DKEK_KEY_LEN) :
    (r1.val ≠ 0 →
      (tee_otp_get_hw_unique_key H NDEBUG P w hwkey).completion
          = .returned (TEE_Result.ofInt r1) ∧
        TEE_Result.ofInt r1 ≠ TEE_SUCCESS) ∧
    (r1.val = 0 → r2.val ≠ 0 →
      (tee_otp_get_hw_unique_key H NDEBUG P w hwkey).completion
          = .returned (TEE_Result.ofInt r2) ∧
        TEE_Result.ofInt r2 ≠ TEE_SUCCESS) ∧
    (r1.val = 0 → r2.val = 0 → r3.val ≠ 0 →
      (tee_otp_get_hw_unique_key H NDEBUG P w hwkey).completion
          = .returned (TEE_Result.ofInt r3) ∧
        TEE_Result.ofInt r3 ≠ TEE_SUCCESS) ∧
    ((tee_otp_get_hw_unique_key H NDEBUG P w hwkey).completion = .returned TEE_SUCCESS ↔
      r1.val = 0 ∧ r2.val = 0 ∧ r3.val = 0) := by
  have hpass : NDEBUG = true ∨ H ≤ SA2UL_DKEK_KEY_LEN := Or.inr hle
  have hne : ∀ r : CInt, r.val ≠ 0 → TEE_Result.ofInt r ≠ TEE_SUCCESS :=
    fun r hr h => hr ((TEE_Result.ofInt_eq_success_iff r).mp h)
  have hne2 : ∀ r : CInt, r.val ≠ 0 →
      Completion.returned (TEE_Result.ofInt r) ≠ Completion.returned TEE_SUCCESS :=
    fun r hr h => hne r hr (Completion.returned.inj h)
  refine ⟨fun n1 => ?_, fun z1 n2 => ?_, fun z1 z2 n3 => ?_, ?_⟩
  · rw [run_sec_proxy_failed H NDEBUG P w hwkey r1 w1 hpass e1 n1]
    exact ⟨rfl, hne r1 n1⟩
  · rw [run_ti_sci_init_failed H NDEBUG P w hwkey r1 r2 w1 w2 hpass e1 z1 e2 n2]
    exact ⟨rfl, hne r2 n2⟩
  · rw [run_get_dkek_failed H NDEBUG P w hwkey r1 r2 r3 w1 w2 w3 K hpass e1 z1 e2 z2 e3 n3]
    exact ⟨rfl, hne r3 n3⟩
  · by_cases z1 : r1.val = 0
    · by_cases z2 : r2.val = 0
      · by_cases z3 : r3.val = 0
        · obtain ⟨d, _, hrun⟩ :=
            run_succeeded H NDEBUG P w hwkey r1 r2 r3 w1 w2 w3 K hle e1 z1 e2 z2 e3 z3
          rw [hrun]
          exact ⟨fun _ => ⟨z1, z2, z3⟩, fun _ => rfl⟩
        · rw [run_get_dkek_failed H NDEBUG P w hwkey r1 r2 r3 w1 w2 w3 K hpass e1 z1 e2 z2 e3 z3]
          exact ⟨fun h => absurd h (hne2 r3 z3), fun h => absurd h.2.2 z3⟩
      · rw [run_ti_sci_init_failed H NDEBUG P w hwkey r1 r2 w1 w2 hpass e1 z1 e2 z2]
        exact ⟨fun h => absurd h (hne2 r2 z2), fun h => absurd h.2.1 z2⟩
    · rw [run_sec_proxy_failed H NDEBUG P w hwkey r1 w1 hpass e1 z1]
      exact ⟨fun h => absurd h (hne2 r1 z1), fun h => absurd h.1 z1⟩

/-- Witness of C3: `k3_sec_proxy_init` returns 0 and `ti_sci_init` returns -1;
the function returns `0xFFFFFFFF`, which is not `TEE_SUCCESS`. -/
theorem failure_is_returned_witness :
    16 ≤ SA2UL_DKEK_KEY_LEN ∧
    (tee_otp_get_hw_unique_key 16 false
      (constPlatform CInt.zero CInt.minusOne CInt.zero patternKey) () slot16).completion
        = .returned 0xFFFFFFFF ∧
    (0xFFFFFFFF : TEE_Result) ≠ TEE_SUCCESS :=
  ⟨by decide,
   ((failure_is_returned 16 false
      (constPlatform CInt.zero CInt.minusOne CInt.zero patternKey) () slot16
      CInt.zero CInt.minusOne CInt.zero () () () patternKey rfl rfl rfl (by decide)).2.1
        rfl (by decide)).1,
   ((failure_is_returned 16 false
      (constPlatform CInt.zero CInt.minusOne CInt.zero patternKey) () slot16
      CInt.zero CInt.minusOne CInt.zero () () () patternKey rfl rfl rfl (by decide)).2.1
        rfl (by decide)).2⟩

/-- C4: no fallback key. Whenever the function returns a value other than
`TEE_SUCCESS`, the caller's `hwkey->data` is byte for byte what it was on
entry. -/
theorem hwkey_unchanged_on_failure {W : Type} (H : Nat) (NDEBUG : Bool)
    (P : Platform W) (w : W) (hwkey : tee_hw_unique_key H) (ret : TEE_Result)
    (hret : (tee_otp_get_hw_unique_key H NDEBUG P w hwkey).completion = .returned ret)
    (hfail : ret ≠ TEE_SUCCESS) :
    (tee_otp_get_hw_unique_key H NDEBUG P w hwkey).hwkey = hwkey ∧
    (tee_otp_get_hw_unique_key H NDEBUG P w hwkey).hwkey.data.bytes = hwkey.data.bytes := by
  have key : (tee_otp_get_hw_unique_key H NDEBUG P w hwkey).hwkey = hwkey := by
    rcases run_cases H NDEBUG P w hwkey (P.k3_sec_proxy_init w).1
        (P.ti_sci_init (P.k3_sec_proxy_init w).2).1
        (P.ti_sci_get_dkek 0 "OP-TEE" "DKEK" (Buffer.zero SA2UL_DKEK_KEY_LEN)
          (P.ti_sci_init (P.k3_sec_proxy_init w).2).2).1
        (P.k3_sec_proxy_init w).2
        (P.ti_sci_init (P.k3_sec_proxy_init w).2).2
        (P.ti_sci_get_dkek 0 "OP-TEE" "DKEK" (Buffer.zero SA2UL_DKEK_KEY_LEN)
          (P.ti_sci_init (P.k3_sec_proxy_init w).2).2).2.2
        (P.ti_sci_get_dkek 0 "OP-TEE" "DKEK" (Buffer.zero SA2UL_DKEK_KEY_LEN)
          (P.ti_sci_init (P.k3_sec_proxy_init w).2).2).2.1
        rfl rfl rfl with
      ⟨_, _, h⟩ | ⟨_, h⟩ | ⟨_, _, h⟩ | ⟨_, _, _, h⟩ | ⟨_, _, _, _, d, _, h⟩ | ⟨_, _, _, _, _, h⟩
    · rw [h]
    · rw [h]
    · rw [h]
    · rw [h]
    · rw [h] at hret
      exact absurd (Completion.returned.inj hret).symm hfail
    · rw [h]
  exact ⟨key, by rw [key]⟩

/-- Witness of C4: `ti_sci_get_dkek` fails with -1 after storing a key in the
buffer; the 16-byte key slot still holds the bytes `0x55` it held on entry. -/
theorem hwkey_unchanged_on_failure_witness :
    (tee_otp_get_hw_unique_key 16 false
      (constPlatform CInt.zero CInt.zero CInt.minusOne patternKey) () slot16).completion
        = .returned 0xFFFFFFFF ∧
    (0xFFFFFFFF : TEE_Result) ≠ TEE_SUCCESS ∧
    (tee_otp_get_hw_unique_key 16 false
      (constPlatform CInt.zero CInt.zero CInt.minusOne patternKey) () slot16).hwkey.data.bytes
        = List.replicate 16 0x55 :=
  ⟨by decide, by decide,
   (hwkey_unchanged_on_failure 16 false
      (constPlatform CInt.zero CInt.zero CInt.minusOne patternKey) () slot16
      0xFFFFFFFF (by decide) (by decide)).2⟩

/-! ### Order and arguments of the platform calls -/

/-- C9: initialisation precedes first use. In every execution, a call of
`ti_sci_get_dkek` is made only as the third call, after `k3_sec_proxy_init` and
then `ti_sci_init` were called and both returned 0; if `k3_sec_proxy_init`
fails neither `ti_sci_init` nor `ti_sci_get_dkek` is called, and if
`ti_sci_init` fails `ti_sci_get_dkek` is not called. -/
theorem init_precedes_get_dkek {W : Type} (H : Nat) (NDEBUG : Bool)
    (P : Platform W) (w : W) (hwkey : tee_hw_unique_key H) :
    (∀ (sa2ul_instance : uint8_t) (label context : String) (ret : CInt),
      Call.ti_sci_get_dkek sa2ul_instance label context ret ∈
          (tee_otp_get_hw_unique_key H NDEBUG P w hwkey).calls →
        ∃ a b : CInt,
          (tee_otp_get_hw_unique_key H NDEBUG P w hwkey).calls =
            [.k3_sec_proxy_init a, .ti_sci_init b,
              .ti_sci_get_dkek sa2ul_instance label context ret] ∧
          P.k3_sec_proxy_init w = (a, (P.k3_sec_proxy_init w).2) ∧ a.val = 0 ∧
          P.ti_sci_init (P.k3_sec_proxy_init w).2 =
            (b, (P.ti_sci_init (P.k3_sec_proxy_init w).2).2) ∧ b.val = 0) ∧
    ((P.k3_sec_proxy_init w).1.val ≠ 0 →
      ∀ c ∈ (tee_otp_get_hw_unique_key H NDEBUG P w hwkey).calls,
        c.isTiSciInit = false ∧ c.isGetDkek = false) ∧
    ((P.k3_sec_proxy_init w).1.val = 0 →
      (P.ti_sci_init (P.k3_sec_proxy_init w).2).1.val ≠ 0 →
      ∀ c ∈ (tee_otp_get_hw_unique_key H NDEBUG P w hwkey).calls, c.isGetDkek = false) := by
  rcases run_cases H NDEBUG P w hwkey (P.k3_sec_proxy_init w).1
      (P.ti_sci_init (P.k3_sec_proxy_init w).2).1
      (P.ti_sci_get_dkek 0 "OP-TEE" "DKEK" (Buffer.zero SA2UL_DKEK_KEY_LEN)
        (P.ti_sci_init (P.k3_sec_proxy_init w).2).2).1
      (P.k3_sec_proxy_init w).2
      (P.ti_sci_init (P.k3_sec_proxy_init w).2).2
      (P.ti_sci_get_dkek 0 "OP-TEE" "DKEK" (Buffer.zero SA2UL_DKEK_KEY_LEN)
        (P.ti_sci_init (P.k3_sec_proxy_init w).2).2).2.2
      (P.ti_sci_get_dkek 0 "OP-TEE" "DKEK" (Buffer.zero SA2UL_DKEK_KEY_LEN)
        (P.ti_sci_init (P.k3_sec_proxy_init w).2).2).2.1
      rfl rfl rfl with
    ⟨_, _, h⟩ | ⟨n1, h⟩ | ⟨z1, n2, h⟩ | ⟨z1, z2, _, h⟩ | ⟨z1, z2, _, _, d, _, h⟩ |
      ⟨z1, z2, _, _, _, h⟩
  · rw [h]
    simp
  · rw [h]
    simp [Call.isTiSciInit, Call.isGetDkek]
  · rw [h]
    simp [Call.isTiSciInit, Call.isGetDkek, z1]
  · rw [h]
    refine ⟨?_, fun n1 => absurd z1 n1, fun _ n2 => absurd z2 n2⟩
    intro i l c r hmem
    simp only [List.mem_cons, List.mem_singleton, List.not_mem_nil, or_false,
      false_or, reduceCtorEq, Call.ti_sci_get_dkek.injEq] at hmem
    obtain ⟨rfl, rfl, rfl, rfl⟩ := hmem
    exact ⟨_, _, rfl, rfl, z1, rfl, z2⟩
  · rw [h]
    refine ⟨?_, fun n1 => absurd z1 n1, fun _ n2 => absurd z2 n2⟩
    intro i l c r hmem
    simp only [List.mem_cons, List.mem_singleton, List.not_mem_nil, or_false,
      false_or, reduceCtorEq, Call.ti_sci_get_dkek.injEq] at hmem
    obtain ⟨rfl, rfl, rfl, rfl⟩ := hmem
    exact ⟨_, _, rfl, rfl, z1, rfl, z2⟩
  · rw [h]
    refine ⟨?_, fun n1 => absurd z1 n1, fun _ n2 => absurd z2 n2⟩
    intro i l c r hmem
    simp only [List.mem_cons, List.mem_singleton, List.not_mem_nil, or_false,
      false_or, reduceCtorEq, Call.ti_sci_get_dkek.injEq] at hmem
    obtain ⟨rfl, rfl, rfl, rfl⟩ := hmem
    exact ⟨_, _, rfl, rfl, z1, rfl, z2⟩

/-- Witness of C9: when all three calls succeed, the call of `ti_sci_get_dkek`
is the third call, after two initialisations that returned 0. -/
theorem init_precedes_get_dkek_witness :
    ∃ a b : CInt,
      (tee_otp_get_hw_unique_key 16 false
        (constPlatform CInt.zero CInt.zero CInt.zero patternKey) () slot16).calls =
          [.k3_sec_proxy_init a, .ti_sci_init b,
            .ti_sci_get_dkek 0 "OP-TEE" "DKEK" CInt.zero] ∧
      (constPlatform CInt.zero CInt.zero CInt.zero patternKey).k3_sec_proxy_init () =
        (a, ((constPlatform CInt.zero CInt.zero CInt.zero patternKey).k3_sec_proxy_init ()).2) ∧
      a.val = 0 ∧
      (constPlatform CInt.zero CInt.zero CInt.zero patternKey).ti_sci_init
          ((constPlatform CInt.zero CInt.zero CInt.zero patternKey).k3_sec_proxy_init ()).2 =
        (b, ((constPlatform CInt.zero CInt.zero CInt.zero patternKey).ti_sci_init
          ((constPlatform CInt.zero CInt.zero CInt.zero patternKey).k3_sec_proxy_init ()).2).2) ∧
      b.val = 0 :=
  (init_precedes_get_dkek 16 false
    (constPlatform CInt.zero CInt.zero CInt.zero patternKey) () slot16).1
      0 "OP-TEE" "DKEK" CInt.zero (by decide)

/-- C10: the DKEK request made by `tee_otp_get_hw_unique_key` meets the
preconditions of `get_dkek`. There is at most one call of `ti_sci_get_dkek` in
an execution, and it is made with instance 0, label "OP-TEE" (6 bytes) and
context "DKEK" (4 bytes): the two lengths add up to 10, which is at most
`KDF_LABEL_AND_CONTEXT_LEN_MAX = 41`, each length fits the one-byte members
`kdf_label_len` and `kdf_context_len`, and label and context together fit the
41-byte member `kdf_label_and_context`. -/
theorem get_dkek_request_meets_preconditions {W : Type} (H : Nat) (NDEBUG : Bool)
    (P : Platform W) (w : W) (hwkey : tee_hw_unique_key H) :
    ((tee_otp_get_hw_unique_key H NDEBUG P w hwkey).calls.countP Call.isGetDkek ≤ 1) ∧
    (∀ (sa2ul_instance : uint8_t) (label context : String) (ret : CInt),
      Call.ti_sci_get_dkek sa2ul_instance label context ret ∈
          (tee_otp_get_hw_unique_key H NDEBUG P w hwkey).calls →
        sa2ul_instance = 0 ∧ label = "OP-TEE" ∧ context = "DKEK" ∧
        label.utf8ByteSize = 6 ∧ context.utf8ByteSize = 4 ∧
        label.utf8ByteSize + context.utf8ByteSize = 10 ∧
        KDF_LABEL_AND_CONTEXT_LEN_MAX = 41 ∧
        label.utf8ByteSize + context.utf8ByteSize ≤ KDF_LABEL_AND_CONTEXT_LEN_MAX ∧
        ti_sci_msg_req_sa2ul_get_dkek.memberSize "kdf_label_len" = some 1 ∧
        label.utf8ByteSize < 2 ^ 8 ∧
        ti_sci_msg_req_sa2ul_get_dkek.memberSize "kdf_context_len" = some 1 ∧
        context.utf8ByteSize < 2 ^ 8 ∧
        ti_sci_msg_req_sa2ul_get_dkek.memberSize "kdf_label_and_context" = some 41 ∧
        (label ++ context).utf8ByteSize ≤ 41) ∧
    ((NDEBUG = true ∨ H ≤ SA2UL_DKEK_KEY_LEN) →
      (P.k3_sec_proxy_init w).1.val = 0 →
      (P.ti_sci_init (P.k3_sec_proxy_init w).2).1.val = 0 →
      ∃ ret : CInt, Call.ti_sci_get_dkek 0 "OP-TEE" "DKEK" ret ∈
        (tee_otp_get_hw_unique_key H NDEBUG P w hwkey).calls) := by
  have hargs : ∀ (i : uint8_t) (l c : String) (r r3 : CInt) (a b : CInt),
      Call.ti_sci_get_dkek i l c r ∈
        [Call.k3_sec_proxy_init a, Call.ti_sci_init b,
          Call.ti_sci_get_dkek 0 "OP-TEE" "DKEK" r3] →
      i = 0 ∧ l = "OP-TEE" ∧ c = "DKEK" ∧
        l.utf8ByteSize = 6 ∧ c.utf8ByteSize = 4 ∧
        l.utf8ByteSize + c.utf8ByteSize = 10 ∧
        KDF_LABEL_AND_CONTEXT_LEN_MAX = 41 ∧
        l.utf8ByteSize + c.utf8ByteSize ≤ KDF_LABEL_AND_CONTEXT_LEN_MAX ∧
        ti_sci_msg_req_sa2ul_get_dkek.memberSize "kdf_label_len" = some 1 ∧
        l.utf8ByteSize < 2 ^ 8 ∧
        ti_sci_msg_req_sa2ul_get_dkek.memberSize "kdf_context_len" = some 1 ∧
        c.utf8ByteSize < 2 ^ 8 ∧
        ti_sci_msg_req_sa2ul_get_dkek.memberSize "kdf_label_and_context" = some 41 ∧
        (l ++ c).utf8ByteSize ≤ 41 := by
    intro i l c r r3 a b hmem
    simp only [List.mem_cons, List.mem_singleton, List.not_mem_nil, or_false,
      false_or, reduceCtorEq, Call.ti_sci_get_dkek.injEq] at hmem
    obtain ⟨rfl, rfl, rfl, rfl⟩ := hmem
    decide
  rcases run_cases H NDEBUG P w hwkey (P.k3_sec_proxy_init w).1
      (P.ti_sci_init (P.k3_sec_proxy_init w).2).1
      (P.ti_sci_get_dkek 0 "OP-TEE" "DKEK" (Buffer.zero SA2UL_DKEK_KEY_LEN)
        (P.ti_sci_init (P.k3_sec_proxy_init w).2).2).1
      (P.k3_sec_proxy_init w).2
      (P.ti_sci_init (P.k3_sec_proxy_init w).2).2
      (P.ti_sci_get_dkek 0 "OP-TEE" "DKEK" (Buffer.zero SA2UL_DKEK_KEY_LEN)
        (P.ti_sci_init (P.k3_sec_proxy_init w).2).2).2.2
      (P.ti_sci_get_dkek 0 "OP-TEE" "DKEK" (Buffer.zero SA2UL_DKEK_KEY_LEN)
        (P.ti_sci_init (P.k3_sec_proxy_init w).2).2).2.1
      rfl rfl rfl with
    ⟨hnd, hgt, h⟩ | ⟨n1, h⟩ | ⟨z1, n2, h⟩ | ⟨z1, z2, _, h⟩ | ⟨z1, z2, _, _, d, _, h⟩ |
      ⟨z1, z2, _, _, _, h⟩
  · rw [h]
    refine ⟨by simp, by simp, ?_⟩
    intro hpass
    rcases hpass with hp | hp
    · rw [hnd] at hp
      exact absurd hp (by decide)
    · omega
  · rw [h]
    exact ⟨by simp [Call.isGetDkek], by simp, fun _ z1 => absurd z1 n1⟩
  · rw [h]
    exact ⟨by simp [Call.isGetDkek], by simp, fun _ _ z2 => absurd z2 n2⟩
  · rw [h]
    exact ⟨by simp [Call.isGetDkek], fun i l c r hm => hargs i l c r _ _ _ hm,
      fun _ _ _ =>
        ⟨_, List.mem_cons_of_mem _ (List.mem_cons_of_mem _ (List.mem_singleton.mpr rfl))⟩⟩
  · rw [h]
    exact ⟨by simp [Call.isGetDkek], fun i l c r hm => hargs i l c r _ _ _ hm,
      fun _ _ _ =>
        ⟨_, List.mem_cons_of_mem _ (List.mem_cons_of_mem _ (List.mem_singleton.mpr rfl))⟩⟩
  · rw [h]
    exact ⟨by simp [Call.isGetDkek], fun i l c r hm => hargs i l c r _ _ _ hm,
      fun _ _ _ =>
        ⟨_, List.mem_cons_of_mem _ (List.mem_cons_of_mem _ (List.mem_singleton.mpr rfl))⟩⟩

/-- Witness of C10: when both initialisations succeed the request is made, with
instance 0, label "OP-TEE" and context "DKEK", 10 bytes together. -/
theorem get_dkek_request_meets_preconditions_witness :
    (∃ ret : CInt, Call.ti_sci_get_dkek 0 "OP-TEE" "DKEK" ret ∈
      (tee_otp_get_hw_unique_key 16 false
        (constPlatform CInt.zero CInt.zero CInt.minusOne patternKey) () slot16).calls) ∧
    "OP-TEE".utf8ByteSize + "DKEK".utf8ByteSize ≤ KDF_LABEL_AND_CONTEXT_LEN_MAX :=
  ⟨(get_dkek_request_meets_preconditions 16 false
      (constPlatform CInt.zero CInt.zero CInt.minusOne patternKey) () slot16).2.2
        (Or.inr (by decide)) rfl rfl,
   ((get_dkek_request_meets_preconditions 16 false
      (constPlatform CInt.zero CInt.zero CInt.minusOne patternKey) () slot16).2.1
        0 "OP-TEE" "DKEK" CInt.minusOne (by decide)).2.2.2.2.2.2.2.1⟩

end K3
